import Mathlib

/-!
Shallow embedding of `Classification/utils.py` (California-housing training
script): the pandas-level feature/target preprocessing, the TensorFlow
feature-column construction, and the periodic training loops of
`train_linear_regressor_model` / `train_linear_classifier_model`.

Cell values are modelled by `Val`, a rational number extended with the IEEE
special values `posInf`, `negInf` and `nan` that pandas float64 division can
produce.  A `DataFrame` is an ordered association list of named columns.
Operations that raise in pandas (missing column lookup) return `Option`.
-/

/-- A float64 cell value: a finite rational, an infinity, or NaN. -/
inductive Val where
  | num : ℚ → Val
  | posInf : Val
  | negInf : Val
  | nan : Val
deriving DecidableEq, Repr

/-- Float division as pandas performs it elementwise with `/`:
finite/0 gives ±inf or NaN, NaN is absorbing, finite/inf is 0. -/
def Val.div : Val → Val → Val
  | Val.nan, _ => Val.nan
  | _, Val.nan => Val.nan
  | Val.num a, Val.num b =>
      if b = 0 then
        if 0 < a then Val.posInf else if a < 0 then Val.negInf else Val.nan
      else Val.num (a / b)
  | Val.num _, Val.posInf => Val.num 0
  | Val.num _, Val.negInf => Val.num 0
  | Val.posInf, Val.num b => if b < 0 then Val.negInf else Val.posInf
  | Val.negInf, Val.num b => if b < 0 then Val.posInf else Val.negInf
  | Val.posInf, Val.posInf => Val.nan
  | Val.posInf, Val.negInf => Val.nan
  | Val.negInf, Val.posInf => Val.nan
  | Val.negInf, Val.negInf => Val.nan

/-- Strict comparison of a cell against a finite threshold
(`series > threshold`); NaN compares false. -/
def Val.gt (v : Val) (t : ℚ) : Bool :=
  match v with
  | Val.num q => decide (t < q)
  | Val.posInf => true
  | Val.negInf => false
  | Val.nan => false

/-- Whether the value is a finite number. -/
def Val.isNum : Val → Bool
  | Val.num _ => true
  | _ => false

/-- `.astype(float)` applied to a boolean: True becomes 1.0, False 0.0. -/
def boolFloat (b : Bool) : Val := Val.num (if b then 1 else 0)

/-- A pandas DataFrame: an ordered list of named columns (series). -/
structure DataFrame where
  cols : List (String × List Val)
deriving DecidableEq, Repr

/-- The column names, in order. -/
def DataFrame.colNames (df : DataFrame) : List String := df.cols.map Prod.fst

/-- `df[name]`: the series for a column, `none` when pandas would raise
a `KeyError`. -/
def DataFrame.getCol? (df : DataFrame) (name : String) : Option (List Val) :=
  (df.cols.find? (fun p => p.1 == name)).map Prod.snd

/-- Look up each requested column in turn; `none` as soon as one is
missing. -/
def selectCols (df : DataFrame) : List String → Option (List (String × List Val))
  | [] => some []
  | n :: ns => do
      let c ← df.getCol? n
      let rest ← selectCols df ns
      return (n, c) :: rest

/-- `df[[names]]`: a new DataFrame holding the requested columns in the
requested order. -/
def DataFrame.select (df : DataFrame) (names : List String) : Option DataFrame :=
  (selectCols df names).map DataFrame.mk

/-- `df[name] = series`: replace the column in place if the name exists,
otherwise append it as the last column. -/
def DataFrame.setCol (df : DataFrame) (name : String) (vals : List Val) : DataFrame :=
  if df.colNames.contains name then
    ⟨df.cols.map (fun p => if p.1 == name then (name, vals) else p)⟩
  else
    ⟨df.cols ++ [(name, vals)]⟩

/-- `.copy()`: an independent DataFrame with the same contents. -/
def DataFrame.copy (df : DataFrame) : DataFrame := df

/-- The eight columns `preprocess_features` selects from the housing data. -/
def featureNames : List String :=
  ["latitude", "longitude", "housing_median_age", "total_rooms",
   "total_bedrooms", "population", "households", "median_income"]

/-- `preprocess_features`: select the eight feature columns, copy, and add
the synthetic `rooms_per_person = total_rooms / population` column. -/
def preprocess_features (california_housing_df : DataFrame) : Option DataFrame := do
  let selected_features ← california_housing_df.select featureNames
  let processed_features := selected_features.copy
  let total_rooms ← california_housing_df.getCol? "total_rooms"
  let population ← california_housing_df.getCol? "population"
  return processed_features.setCol "rooms_per_person"
    (List.zipWith Val.div total_rooms population)

/-- The default classification threshold on `median_house_value`. -/
def defaultThreshold : ℚ := 265000

/-- `preprocess_targets`: a fresh DataFrame with the single column
`median_house_value_is_high = (median_house_value > threshold).astype(float)`.
The Python default for `threshold` is `defaultThreshold`. -/
def preprocess_targets (california_housing_df : DataFrame)
    (threshold : ℚ) : Option DataFrame := do
  let mhv ← california_housing_df.getCol? "median_house_value"
  let output_targets : DataFrame := ⟨[]⟩
  return output_targets.setCol "median_house_value_is_high"
    (mhv.map (fun v => boolFloat (v.gt threshold)))

/-- A TensorFlow numeric feature column; `tf.feature_column.numeric_column`
with default arguments is determined by the key, and equal keys give equal
(namedtuple) values. -/
structure FeatureColumn where
  key : String
deriving DecidableEq, Repr

/-- `construct_feature_columns`: the set of numeric feature columns, one per
input feature name. -/
def construct_feature_columns (input_features : List String) : Finset FeatureColumn :=
  (input_features.map (fun my_feature => FeatureColumn.mk my_feature)).toFinset

/-! ### Object-store view of `preprocess_features`

Pandas DataFrames are mutable heap objects; to state that
`preprocess_features` leaves its argument unchanged we re-run the same
sequence of statements over an explicit store of DataFrame objects, where
`df[[...]]` and `.copy()` allocate fresh objects and column assignment
writes through an object id. -/

/-- A heap of DataFrame objects, addressed by allocation index. -/
def Store : Type := List DataFrame

/-- Allocate a fresh object, returning the extended store and its id. -/
def Store.alloc (s : Store) (df : DataFrame) : Store × Nat :=
  (List.append s [df], List.length s)

/-- Read the object at an id. -/
def Store.read (s : Store) (i : Nat) : Option DataFrame := List.get? s i

/-- Overwrite the object at an id. -/
def Store.write (s : Store) (i : Nat) (df : DataFrame) : Store := List.set s i df

/-- `preprocess_features` over the object store: the input is an object id;
selection and `.copy()` allocate, and the synthetic column is written into
the copy's id only. -/
def preprocess_features_st (s : Store) (input : Nat) : Option (Store × Nat) := do
  let df ← s.read input
  let selected_features ← df.select featureNames
  let (s1, _selId) := s.alloc selected_features
  let (s2, procId) := s1.alloc selected_features.copy
  let total_rooms ← df.getCol? "total_rooms"
  let population ← df.getCol? "population"
  let s3 := s2.write procId
    (selected_features.copy.setCol "rooms_per_person"
      (List.zipWith Val.div total_rooms population))
  return (s3, procId)

/-! ### The periodic training loop

`train_linear_regressor_model` and `train_linear_classifier_model` share
the same structure; everything they delegate to TensorFlow / sklearn
(one `train` chunk, the two `predict` passes, the scalar loss metric) is
abstracted into an `EstimatorOps` record, and the loop records the ordered
trace of those external effects. -/

/-- The external operations a training period performs, for an estimator
state of type `α`: train for a number of steps, and score the current
model on the training and validation sets (predict + metric). -/
structure EstimatorOps (α : Type) where
  trainStep : α → ℚ → α
  trainingLoss : α → ℚ
  validationLoss : α → ℚ

/-- The observable effects of the training functions, in order. -/
inductive Ev where
  | train
  | predictTraining
  | predictValidation
  | scoreTraining
  | scoreValidation
  | printLoss
  | plot
deriving DecidableEq, Repr

/-- `periods = 10` in both training functions. -/
def periods : ℕ := 10

/-- `steps_per_period = steps / periods` (Python 3 true division). -/
def steps_per_period (steps : ℤ) : ℚ := (steps : ℚ) / (periods : ℚ)

/-- The step count each of the `periods` loop iterations passes to
`estimator.train`. -/
def period_step_requests (steps : ℤ) : List ℚ :=
  (List.range periods).map (fun _ => steps_per_period steps)

/-- The effect trace of one loop body: train, the two predictions, the two
loss computations, and the printed metric line. -/
def periodEvents : List Ev :=
  [Ev.train, Ev.predictTraining, Ev.predictValidation,
   Ev.scoreTraining, Ev.scoreValidation, Ev.printLoss]

/-- The state threaded through the loop: the estimator, the two metric
history lists, and the effect trace so far. -/
structure LoopState (α : Type) where
  model : α
  trainingHist : List ℚ
  validationHist : List ℚ
  events : List Ev

/-- One period: train from the prior state, predict and score on both
sets, print the loss, and append both metrics to the histories. -/
def runPeriod {α : Type} (ops : EstimatorOps α) (spp : ℚ)
    (st : LoopState α) : LoopState α :=
  let m := ops.trainStep st.model spp
  let tLoss := ops.trainingLoss m
  let vLoss := ops.validationLoss m
  { model := m
    trainingHist := st.trainingHist ++ [tLoss]
    validationHist := st.validationHist ++ [vLoss]
    events := st.events ++ periodEvents }

/-- `for period in range(0, periods)`: iterate `runPeriod` `n` times. -/
def trainLoop {α : Type} (ops : EstimatorOps α) (spp : ℚ) :
    ℕ → LoopState α → LoopState α
  | 0, st => st
  | Nat.succ n, st => trainLoop ops spp n (runPeriod ops spp st)

/-- The shared body of `train_linear_regressor_model` and
`train_linear_classifier_model`: construct the estimator, run the periodic
loop with empty histories, emit the plot, and return the fitted estimator
with the histories and trace. -/
def train_model {α : Type} (ops : EstimatorOps α) (init : α)
    (steps : ℤ) : LoopState α :=
  let spp := steps_per_period steps
  let final := trainLoop ops spp periods
    { model := init, trainingHist := [], validationHist := [], events := [] }
  { final with events := final.events ++ [Ev.plot] }

/-! ### Helper lemmas -/

theorem selectCols_map_fst (df : DataFrame) :
    ∀ (names : List String) (l : List (String × List Val)),
      selectCols df names = some l → l.map Prod.fst = names := by
  intro names
  induction names with
  | nil => intro l h; simp [selectCols] at h; simp [← h]
  | cons n ns ih =>
      intro l h
      simp only [selectCols, Option.bind_eq_some, Option.pure_def,
        Option.some.injEq, bind, Option.bind_eq_some] at h
      obtain ⟨c, _, rest, hrest, hl⟩ := h
      subst hl
      simp [ih rest hrest]

theorem selectCols_missing (df : DataFrame) :
    ∀ (names : List String) (n : String), n ∈ names → df.getCol? n = none →
      selectCols df names = none := by
  intro names
  induction names with
  | nil => intro n h; simp at h
  | cons m ms ih =>
      intro n hmem hnone
      rcases List.mem_cons.mp hmem with h | h
      · subst h; simp [selectCols, hnone]
      · simp only [selectCols, bind, ih n h hnone]
        cases df.getCol? m <;> simp

theorem getCol_setCol_self (df : DataFrame) (name : String) (vals : List Val)
    (h : df.colNames.contains name = false) :
    (df.setCol name vals).getCol? name = some vals := by
  have hmem : ¬ name ∈ df.colNames := by simpa using h
  have hfind : df.cols.find? (fun p => p.1 == name) = none := by
    rw [List.find?_eq_none]
    intro p hp hbeq
    exact hmem (by
      have hp1 : p.1 = name := by simpa using hbeq
      exact hp1 ▸ List.mem_map_of_mem Prod.fst hp)
  simp [DataFrame.setCol, hmem, DataFrame.getCol?, List.find?_append, hfind]

theorem colNames_setCol_new (df : DataFrame) (name : String) (vals : List Val)
    (h : df.colNames.contains name = false) :
    (df.setCol name vals).colNames = df.colNames ++ [name] := by
  have hmem : ¬ name ∈ df.colNames := by simpa using h
  simp only [DataFrame.colNames] at hmem
  simp [DataFrame.setCol, DataFrame.colNames, hmem]

/-! ### Claim theorems -/

/-- C1: `preprocess_targets` returns a single-column DataFrame named
`median_house_value_is_high` whose entries are `1.0` where
`median_house_value` strictly exceeds the threshold and `0.0` otherwise,
so every entry is `0.0` or `1.0`; the default threshold is 265000. -/
theorem preprocess_targets_binary (df : DataFrame) (t : ℚ) (col : List Val)
    (h : df.getCol? "median_house_value" = some col) :
    preprocess_targets df t =
      some ⟨[("median_house_value_is_high",
              col.map (fun v => boolFloat (v.gt t)))]⟩ ∧
    (∀ out, preprocess_targets df t = some out →
        out.colNames = ["median_house_value_is_high"]) ∧
    (∀ (i : ℕ) (v : Val), col[i]? = some v →
        (col.map (fun w => boolFloat (w.gt t)))[i]? =
          some (if v.gt t then Val.num 1 else Val.num 0)) ∧
    (∀ v ∈ col.map (fun w => boolFloat (w.gt t)),
        v = Val.num 0 ∨ v = Val.num 1) ∧
    defaultThreshold = 265000 := by
  have hout : preprocess_targets df t =
      some ⟨[("median_house_value_is_high",
              col.map (fun v => boolFloat (v.gt t)))]⟩ := by
    simp [preprocess_targets, h, DataFrame.setCol, DataFrame.colNames]
  refine ⟨hout, ?_, ?_, ?_, rfl⟩
  · intro out hsome
    rw [hout] at hsome
    cases hsome
    simp [DataFrame.colNames]
  · intro i v hv
    have := List.getElem?_map (fun w => boolFloat (w.gt t)) col i
    rw [hv] at this
    rw [this]
    cases hgt : v.gt t <;> simp [boolFloat, hgt]
  · intro v hv
    simp only [List.mem_map] at hv
    obtain ⟨w, _, hw⟩ := hv
    cases hgt : w.gt t <;> simp [boolFloat, hgt] at hw <;> simp [← hw]

theorem preprocess_features_eq (df out : DataFrame)
    (h : preprocess_features df = some out) :
    ∃ (l : List (String × List Val)) (tr pop : List Val),
      selectCols df featureNames = some l ∧
      df.getCol? "total_rooms" = some tr ∧
      df.getCol? "population" = some pop ∧
      out = (DataFrame.mk l).setCol "rooms_per_person"
              (List.zipWith Val.div tr pop) := by
  simp only [preprocess_features, DataFrame.select, DataFrame.copy, bind,
    Option.bind_eq_some, Option.map_eq_some', Option.pure_def,
    Option.some.injEq] at h
  obtain ⟨sel, ⟨l, hl, hsel⟩, tr, htr, pop, hpop, hout⟩ := h
  exact ⟨l, tr, pop, hl, htr, hpop, by rw [← hout, ← hsel]⟩

/-- C8: for any input holding the required columns, the output of
`preprocess_features` has exactly the eight selected feature columns
followed by `rooms_per_person`, and no other column. -/
theorem preprocess_features_columns (df out : DataFrame)
    (h : preprocess_features df = some out) :
    out.colNames =
      ["latitude", "longitude", "housing_median_age", "total_rooms",
       "total_bedrooms", "population", "households", "median_income",
       "rooms_per_person"] := by
  obtain ⟨l, tr, pop, hl, _, _, hout⟩ := preprocess_features_eq df out h
  have hnames : (DataFrame.mk l).colNames = featureNames :=
    selectCols_map_fst df featureNames l hl
  have hcontains : (DataFrame.mk l).colNames.contains "rooms_per_person" = false := by
    rw [hnames]; decide
  rw [hout, colNames_setCol_new _ _ _ hcontains, hnames]
  rfl

/-- C2: the `rooms_per_person` column of the output of
`preprocess_features` is the elementwise quotient
`total_rooms / population` of the input's columns. -/
theorem rooms_per_person_div (df out : DataFrame) (tr pop : List Val)
    (hout : preprocess_features df = some out)
    (htr : df.getCol? "total_rooms" = some tr)
    (hpop : df.getCol? "population" = some pop) :
    out.getCol? "rooms_per_person" = some (List.zipWith Val.div tr pop) ∧
    ∀ (i : ℕ) (a b : Val), tr[i]? = some a → pop[i]? = some b →
      (List.zipWith Val.div tr pop)[i]? = some (Val.div a b) := by
  obtain ⟨l, tr2, pop2, hl, htr2, hpop2, heq⟩ := preprocess_features_eq df out hout
  rw [htr] at htr2
  rw [hpop] at hpop2
  cases htr2
  cases hpop2
  constructor
  · have hnames : (DataFrame.mk l).colNames = featureNames :=
      selectCols_map_fst df featureNames l hl
    have hcontains : (DataFrame.mk l).colNames.contains "rooms_per_person" = false := by
      rw [hnames]; decide
    rw [heq, getCol_setCol_self _ _ _ hcontains]
  · intro i a b ha hb
    rw [List.getElem?_zipWith, ha, hb]

/-- C10: the output of `preprocess_targets` depends only on the
`median_house_value` column and the threshold. -/
theorem preprocess_targets_noninterference (df1 df2 : DataFrame) (t : ℚ)
    (h : df1.getCol? "median_house_value" = df2.getCol? "median_house_value") :
    preprocess_targets df1 t = preprocess_targets df2 t := by
  simp only [preprocess_targets]
  rw [h]

/-- C3: both training functions run 10 periods, each requesting
`steps / 10` training steps, and those per-period requests sum to the
configured total number of steps. -/
theorem steps_split_sum (steps : ℤ) (_h : steps ≠ 0) :
    period_step_requests steps =
      List.replicate periods (steps_per_period steps) ∧
    (period_step_requests steps).length = 10 ∧
    (period_step_requests steps).sum = (steps : ℚ) := by
  have hrep : period_step_requests steps =
      List.replicate periods (steps_per_period steps) := by
    simp [period_step_requests, List.map_const]
  refine ⟨hrep, ?_, ?_⟩
  · rw [hrep]; simp [periods]
  · rw [hrep, List.sum_replicate, nsmul_eq_mul, steps_per_period, periods]
    push_cast
    field_simp

/-- C5: failures propagate: `preprocess_features` fails on any missing
required column (there is no guard), `preprocess_targets` fails when
`median_house_value` is absent, and dividing any value by zero never
produces a finite number, so `rooms_per_person` is undefined
(±inf or NaN) wherever `population` is zero. -/
theorem errors_propagate :
    (∀ (df : DataFrame) (n : String), n ∈ featureNames →
        df.getCol? n = none → preprocess_features df = none) ∧
    (∀ (df : DataFrame) (t : ℚ), df.getCol? "median_house_value" = none →
        preprocess_targets df t = none) ∧
    (∀ v : Val, (Val.div v (Val.num 0)).isNum = false) := by
  refine ⟨?_, ?_, ?_⟩
  · intro df n hmem hnone
    simp [preprocess_features, DataFrame.select,
      selectCols_missing df featureNames n hmem hnone]
  · intro df t hnone
    simp [preprocess_targets, hnone]
  · intro v
    cases v with
    | num a =>
        rcases lt_trichotomy a 0 with ha | ha | ha
        · simp [Val.div, Val.isNum, ha, not_lt.mpr ha.le, ha.ne]
        · simp [Val.div, Val.isNum, ha]
        · simp [Val.div, Val.isNum, ha, not_lt.mpr ha.le]
    | posInf => simp [Val.div, Val.isNum]
    | negInf => simp [Val.div, Val.isNum]
    | nan => simp [Val.div, Val.isNum]

/-- C9: `construct_feature_columns` returns a set, so duplicate feature
names collapse: the result equals the result on the deduplicated list,
and it holds exactly one numeric column per distinct input name. -/
theorem construct_feature_columns_dedup (input_features : List String) :
    construct_feature_columns input_features =
      construct_feature_columns input_features.dedup ∧
    ∀ name : String,
      FeatureColumn.mk name ∈ construct_feature_columns input_features ↔
        name ∈ input_features := by
  constructor
  · apply Finset.ext
    intro fc
    simp [construct_feature_columns, List.mem_map, List.mem_dedup]
  · intro name
    simp only [construct_feature_columns, List.mem_toFinset, List.mem_map]
    constructor
    · rintro ⟨m, hm, hmk⟩
      cases hmk
      exact hm
    · intro hmem
      exact ⟨name, hmem, rfl⟩

theorem trainLoop_unfold {α : Type} (ops : EstimatorOps α) (spp : ℚ) :
    ∀ (n : ℕ) (st : LoopState α),
      (trainLoop ops spp n st).trainingHist.length = st.trainingHist.length + n ∧
      (trainLoop ops spp n st).validationHist.length = st.validationHist.length + n ∧
      (trainLoop ops spp n st).events =
        st.events ++ (List.replicate n periodEvents).flatten ∧
      (trainLoop ops spp n st).model =
        (fun m => ops.trainStep m spp)^[n] st.model := by
  intro n
  induction n with
  | zero => intro st; simp [trainLoop]
  | succ k ih =>
      intro st
      obtain ⟨h1, h2, h3, h4⟩ := ih (runPeriod ops spp st)
      refine ⟨?_, ?_, ?_, ?_⟩
      · rw [trainLoop, h1]
        simp [runPeriod]
        omega
      · rw [trainLoop, h2]
        simp [runPeriod]
        omega
      · rw [trainLoop, h3]
        simp [runPeriod, List.replicate_succ]
      · rw [trainLoop, h4, Function.iterate_succ_apply]
        rfl

/-- C4: in both training functions the two metric histories start empty,
gain exactly one scalar per period (the per-period `runPeriod` appends one
training and one validation loss), and end with length equal to the
period count, 10. -/
theorem metric_history_lengths {α : Type} (ops : EstimatorOps α)
    (init : α) (steps : ℤ) :
    (train_model ops init steps).trainingHist.length = periods ∧
    (train_model ops init steps).validationHist.length = periods ∧
    periods = 10 ∧
    ∀ st : LoopState α,
      (runPeriod ops (steps_per_period steps) st).trainingHist =
        st.trainingHist ++ [ops.trainingLoss
          (ops.trainStep st.model (steps_per_period steps))] ∧
      (runPeriod ops (steps_per_period steps) st).validationHist =
        st.validationHist ++ [ops.validationLoss
          (ops.trainStep st.model (steps_per_period steps))] := by
  obtain ⟨h1, h2, _, _⟩ := trainLoop_unfold ops (steps_per_period steps) periods
    { model := init, trainingHist := [], validationHist := [], events := [] }
  refine ⟨?_, ?_, rfl, ?_⟩
  · simpa [train_model] using h1
  · simpa [train_model] using h2
  · intro st
    exact ⟨rfl, rfl⟩

/-- C6: each training function performs, for each of the 10 periods and in
order, the train step, the two predictions, the two loss computations and
one printed metric line, then emits the plot, and returns the estimator it
constructed after the 10 training calls. -/
theorem training_trace_order {α : Type} (ops : EstimatorOps α)
    (init : α) (steps : ℤ) :
    (train_model ops init steps).events =
      (List.replicate periods periodEvents).flatten ++ [Ev.plot] ∧
    ((train_model ops init steps).events.count Ev.printLoss = periods ∧
     (train_model ops init steps).events.getLast? = some Ev.plot) ∧
    (train_model ops init steps).model =
      (fun m => ops.trainStep m (steps_per_period steps))^[periods] init := by
  obtain ⟨_, _, h3, h4⟩ := trainLoop_unfold ops (steps_per_period steps) periods
    { model := init, trainingHist := [], validationHist := [], events := [] }
  have hev : (train_model ops init steps).events =
      (List.replicate periods periodEvents).flatten ++ [Ev.plot] := by
    simp only [train_model, h3]
    simp
  refine ⟨hev, ⟨?_, ?_⟩, by simpa [train_model] using h4⟩
  · rw [hev]; decide
  · rw [hev]; decide

/-- C7: `preprocess_features` does not mutate its input object: running it
over the object store leaves the caller's DataFrame untouched (the column
write lands on the freshly allocated copy). -/
theorem preprocess_features_no_mutation (s : Store) (input : Nat)
    (s2 : Store) (o : Nat)
    (h : preprocess_features_st s input = some (s2, o)) :
    s2.read input = s.read input ∧ o ≠ input := by
  simp only [preprocess_features_st, Store.alloc, Store.read, Store.write,
    bind, Option.bind_eq_some, Option.pure_def, Option.some.injEq] at h
  obtain ⟨df, hdf, sel, hsel, tr, htr, pop, hpop, hpair⟩ := h
  have hinput : input < List.length s := by
    by_contra hge
    rw [List.get?_eq_getElem?, List.getElem?_len_le (le_of_not_lt hge)] at hdf
    exact Option.noConfusion hdf
  have ho : o = List.length s + 1 := by
    have := congrArg Prod.snd hpair
    simpa [List.length_append] using this.symm
  have hs2 : s2 =
      List.set (List.append (List.append s [sel]) [sel.copy])
        (List.length s + 1)
        (sel.copy.setCol "rooms_per_person" (List.zipWith Val.div tr pop)) := by
    have := congrArg Prod.fst hpair
    simpa [List.length_append] using this.symm
  constructor
  · simp only [Store.read]
    rw [hs2]
    rw [List.get?_eq_getElem?, List.get?_eq_getElem?]
    rw [List.getElem?_set_ne (by omega)]
    rw [List.append_eq, List.append_eq]
    rw [List.getElem?_append, if_pos (by simp [List.length_append]; omega)]
    rw [List.getElem?_append, if_pos hinput]
  · omega

/-! ### Concrete instances -/

/-- A one-row housing DataFrame (with `population = 0`, so the synthetic
ratio is `+inf`). -/
def sampleDF : DataFrame :=
  ⟨[("latitude", [Val.num 34]), ("longitude", [Val.num 118]),
    ("housing_median_age", [Val.num 25]), ("total_rooms", [Val.num 6]),
    ("total_bedrooms", [Val.num 2]), ("population", [Val.num 0]),
    ("households", [Val.num 1]), ("median_income", [Val.num 4]),
    ("median_house_value", [Val.num 300000])]⟩

/-- The eight selected columns of `sampleDF`. -/
def sampleSel : DataFrame :=
  ⟨[("latitude", [Val.num 34]), ("longitude", [Val.num 118]),
    ("housing_median_age", [Val.num 25]), ("total_rooms", [Val.num 6]),
    ("total_bedrooms", [Val.num 2]), ("population", [Val.num 0]),
    ("households", [Val.num 1]), ("median_income", [Val.num 4])]⟩

/-- `preprocess_features sampleDF`. -/
def sampleOut : DataFrame :=
  ⟨[("latitude", [Val.num 34]), ("longitude", [Val.num 118]),
    ("housing_median_age", [Val.num 25]), ("total_rooms", [Val.num 6]),
    ("total_bedrooms", [Val.num 2]), ("population", [Val.num 0]),
    ("households", [Val.num 1]), ("median_income", [Val.num 4]),
    ("rooms_per_person", [Val.posInf])]⟩

/-- A second frame agreeing with `sampleDF` only on `median_house_value`. -/
def sampleDF2 : DataFrame :=
  ⟨[("median_house_value", [Val.num 300000]), ("other", [Val.num 5])]⟩

/-- A store holding `sampleDF` as object 0. -/
def sampleStore : Store := [sampleDF]

/-- The store after `preprocess_features_st sampleStore 0`. -/
def sampleStore2 : Store := [sampleDF, sampleSel, sampleOut]

theorem preprocess_targets_binary_witness :
    preprocess_targets sampleDF 265000 =
      some ⟨[("median_house_value_is_high", [Val.num 1])]⟩ := by
  have h := (preprocess_targets_binary sampleDF 265000 [Val.num 300000]
    (by decide)).1
  rw [h]
  decide

theorem rooms_per_person_div_witness :
    sampleOut.getCol? "rooms_per_person" =
      some (List.zipWith Val.div [Val.num 6] [Val.num 0]) :=
  (rooms_per_person_div sampleDF sampleOut [Val.num 6] [Val.num 0]
    (by decide) (by decide) (by decide)).1

theorem steps_split_sum_witness :
    (7 : ℤ) ≠ 0 ∧ (period_step_requests 7).sum = ((7 : ℤ) : ℚ) :=
  ⟨by decide, (steps_split_sum 7 (by decide)).2.2⟩

theorem errors_propagate_witness :
    preprocess_features ⟨[]⟩ = none ∧
    preprocess_targets ⟨[]⟩ 265000 = none ∧
    (Val.div (Val.num 1) (Val.num 0)).isNum = false :=
  ⟨errors_propagate.1 ⟨[]⟩ "latitude" (by decide) (by decide),
   errors_propagate.2.1 ⟨[]⟩ 265000 (by decide),
   errors_propagate.2.2 (Val.num 1)⟩

theorem preprocess_features_no_mutation_witness :
    Store.read sampleStore2 0 = Store.read sampleStore 0 ∧ 2 ≠ 0 :=
  preprocess_features_no_mutation sampleStore 0 sampleStore2 2 (by rfl)

theorem preprocess_features_columns_witness :
    sampleOut.colNames =
      ["latitude", "longitude", "housing_median_age", "total_rooms",
       "total_bedrooms", "population", "households", "median_income",
       "rooms_per_person"] :=
  preprocess_features_columns sampleDF sampleOut (by decide)

theorem preprocess_targets_noninterference_witness :
    preprocess_targets sampleDF 265000 = preprocess_targets sampleDF2 265000 :=
  preprocess_targets_noninterference sampleDF sampleDF2 265000 (by decide)
